import Mathlib

/-!
Verification of the `Waiting` container state transition of the wasi-provider
(`crates/wasi-provider/src/states/container/waiting.rs`).

The transition moves one container of one pod from "waiting" to either
"running" or "terminated".  Rust `HashMap`s are embedded as association
lists with remove-all-occurrences semantics (a `HashMap` never holds a
duplicate key, so lookup/remove/insert agree with the list model on every
reachable state).  External collaborators that live outside this crate
(the kubelet pod/container accessors, `serde_json`, integer parsing,
`WasiRuntime::new`/`start`, base environment derivation) are passed in as
explicit parameters, and every invocation of the sandbox activator
(`WasiRuntime::new`) is recorded in the result so that "the activator was
never invoked" is expressible.
-/

set_option autoImplicit false

namespace Krustlet

universe u v

/-- Lookup in an association-list map (model of `HashMap::get`). -/
def mfind {κ : Type u} {α : Type v} [DecidableEq κ] : List (κ × α) → κ → Option α
  | [], _ => none
  | p :: rest, k => if p.1 = k then some p.2 else mfind rest k

/-- Key removal in an association-list map (model of the key-erasing part of
`HashMap::remove`). -/
def mremove {κ : Type u} {α : Type v} [DecidableEq κ] : List (κ × α) → κ → List (κ × α)
  | [], _ => []
  | p :: rest, k => if p.1 = k then mremove rest k else p :: mremove rest k

/-- Overwriting insertion in an association-list map (model of `HashMap::insert`). -/
def minsert {κ : Type u} {α : Type v} [DecidableEq κ] (m : List (κ × α)) (k : κ) (v : α) :
    List (κ × α) :=
  (k, v) :: mremove m k

/-- Model of `HashMap::extend`: later entries overwrite earlier ones. -/
def mextend {κ : Type u} {α : Type v} [DecidableEq κ] (base from_ : List (κ × α)) :
    List (κ × α) :=
  from_.foldl (fun m kv => minsert m kv.1 kv.2) base

/-- Module bytecode (`Vec<u8>` in the source). -/
abbrev ModuleData := List Nat

/-- Opaque constructed-but-not-started sandbox unit (`WasiRuntime`). -/
abbrev WasiRuntime := Nat

/-- Opaque handle to a started container (`ContainerHandle<WasiRuntime, _>`). -/
abbrev ContainerHandle := Nat

/-- Modelled from the spec: `kubelet::volume::VolumeRef`, a named volume
reference whose host path is present only once the independent mounting
process has completed (`VolumeRef::get_path`). -/
structure VolumeRef where
  host_path : Option String
  deriving DecidableEq

/-- Modelled from the spec: one declared volume mount of a container
(logical name, mount path, optional sub-path). -/
structure VolumeMount where
  name : String
  mount_path : String
  sub_path : Option String
  deriving DecidableEq

/-- Modelled from the spec: the immutable container manifest view used by the
transition — declared name, arguments and volume mounts of the current
revision. -/
structure Container where
  name : String
  args : List String
  volume_mounts : List VolumeMount
  deriving DecidableEq

/-- Modelled from the spec: the pod accessors the transition uses —
namespace, name and the workload annotation map. -/
structure Pod where
  nspace : String
  name : String
  annotations : List (String × String)
  deriving DecidableEq

/-- `PodKey::from(&pod)`: pod identity is namespace plus name. -/
abbrev PodKey := String × String

def podKeyOf (pod : Pod) : PodKey := (pod.nspace, pod.name)

/-- The per-pod run context (`state.run_context`): container name → module
bytecode, logical volume name → volume reference, container name → pending
environment overrides. -/
structure RunContext where
  modules : List (String × ModuleData)
  volumes : List (String × VolumeRef)
  env_vars : List (String × List (String × String))
  deriving DecidableEq

/-- One end of the bounded mpsc status/log channel; both ends returned by one
`mpsc::channel(cap)` call carry the same capacity and allocation tag, which
is what identifies them as ends of the same channel. -/
structure Chan where
  capacity : Nat
  tag : Nat
  deriving DecidableEq

/-- `mpsc::channel(cap)`: allocate a bounded channel, returning the producer
and consumer ends of the same allocation. -/
def mpsc_channel (cap : Nat) : Chan × Chan :=
  (⟨cap, 0⟩, ⟨cap, 0⟩)

/-- Modelled from the spec: `WasiHttpConfig` — optional allowed-domain list
and optional maximum concurrent request count, both defaulting to `None`. -/
structure WasiHttpConfig where
  allowed_domains : Option (List String) := none
  max_concurrent_requests : Option Nat := none
  deriving DecidableEq

/-- The full argument tuple passed to `WasiRuntime::new`. -/
structure WasiRuntimeNewArgs where
  name : String
  module_data : ModuleData
  env : List (String × String)
  args : List String
  container_volumes : List (String × Option String)
  log_path : String
  tx : Chan
  wasi_http_config : WasiHttpConfig
  deriving DecidableEq

/-- Modelled from the spec: the external collaborators invoked by the
transition — base environment derivation (`kubelet::provider::env_vars`),
the structured list-of-strings annotation decoder (`serde_json::from_str`),
the base-10 integer annotation decoder (`str::parse`), sandbox construction
(`WasiRuntime::new`) and sandbox start (`WasiRuntime::start`). -/
structure Externals where
  base_env : List (String × String)
  parseAllowedDomains : String → Except String (List String)
  parseMaxConcurrentRequests : String → Except String Nat
  newRuntime : WasiRuntimeNewArgs → Except String WasiRuntime
  startRuntime : WasiRuntime → Except String ContainerHandle

/-- Modelled from the spec: `kubelet::pod::Handle` — a pod's shared handle
set plus the pod itself (`PodHandle::new(HashMap::new(), pod)`). -/
structure PodHandle where
  container_handles : List (String × ContainerHandle)
  pod : Pod
  deriving DecidableEq

/-- `PodHandle::insert_container_handle`. -/
def PodHandle.insert_container_handle (ph : PodHandle) (key : String)
    (handle : ContainerHandle) : PodHandle :=
  { ph with container_handles := minsert ph.container_handles key handle }

/-- The process-wide handle registry (`provider_state.handles`). -/
abbrev Registry := List (PodKey × PodHandle)

/-- The provider-wide shared state the transition reads and writes:
the log directory path and the handle registry. -/
structure ProviderState where
  log_path : String
  handles : Registry
  deriving DecidableEq

/-- The mutable per-container state given to the transition: the pod, the
container key and the shared run context. -/
structure ContainerState where
  pod : Pod
  container_key : String
  run_context : RunContext
  deriving DecidableEq

/-- The state the transition moves to: `Running` owns the consumer end of the
status channel, `Terminated` carries a message and an error flag. -/
inductive NextState where
  | running (rx : Chan)
  | terminated (message : String) (is_error : Bool)
  deriving DecidableEq

/-- The observable outcome of one `Waiting::next` invocation: the next state,
the run context and registry after the call, and every argument tuple the
sandbox activator (`WasiRuntime::new`) was invoked with. -/
structure NextResult where
  next_state : NextState
  run_context : RunContext
  handles : Registry
  activator_calls : List WasiRuntimeNewArgs
  deriving DecidableEq

/-- `MAX_CONNCURRENT_REQUESTS_ANNOTATION_KEY` (spelling as in the source). -/
def MAX_CONNCURRENT_REQUESTS_ANNOTATION_KEY : String :=
  "alpha.wasi.krustlet.dev/max-concurrent-requests"

/-- `ALLOWED_DOMAINS_ANNOTATION_KEY`. -/
def ALLOWED_DOMAINS_ANNOTATION_KEY : String :=
  "alpha.wasi.krustlet.dev/allowed-domains"

/-- Message of the `ModuleDataMissing` terminal state (the wording, including
the missing "to", is the source's). -/
def moduleMissingMsg (pod : Pod) (container : Container) : String :=
  "Pod " ++ pod.name ++ " container " ++ container.name ++
    " failed load module data from run context."

/-- Message of the volume-resolution terminal state; the `{:?}` rendering of
the wrapped error is modelled as the error string itself. -/
def volumeFailMsg (pod : Pod) (container : Container) (e : String) : String :=
  "Pod " ++ pod.name ++ " container " ++ container.name ++
    " failed to map volume paths: " ++ e

/-- Message of an annotation-parse terminal state; `{:?}` on the `&str` key
renders it quoted. -/
def annotationFailMsg (key : String) (parse_err : String) : String :=
  "Error parsing annotation from key \"" ++ key ++ "\": " ++ parse_err

/-- Message of the runtime-construction terminal state. -/
def constructFailMsg (pod : Pod) (container : Container) (e : String) : String :=
  "Pod " ++ pod.name ++ " container " ++ container.name ++
    " failed to construct runtime: " ++ e

/-- Message of the runtime-start terminal state. -/
def startFailMsg (pod : Pod) (container : Container) (e : String) : String :=
  "Pod " ++ pod.name ++ " container " ++ container.name ++ " failed to start: " ++ e

/-- The guest path of one mount: `PathBuf::from(mount_path)` followed by
`push(sub_path)` when a sub-path is present. -/
def guest_path_of (vm : VolumeMount) : String :=
  match vm.sub_path with
  | none => vm.mount_path
  | some sp => vm.mount_path ++ "/" ++ sp

/-- The per-mount closure inside `volume_path_map`: look the volume up by
logical name, require a resolved host path, and pair it with the guest
path. -/
def resolve_mount (container : Container) (volumes : List (String × VolumeRef))
    (vm : VolumeMount) : Except String (String × Option String) :=
  match mfind volumes vm.name with
  | none =>
      .error ("no volume with the name of " ++ vm.name ++ " found for container " ++
        container.name)
  | some vol =>
      match vol.host_path with
      | none => .error ("Volume " ++ vm.name ++ " has not been mounted yet")
      | some host_path => .ok (host_path, some (guest_path_of vm))

/-- The left-to-right, short-circuiting iterator `map` of `volume_path_map`:
the per-mount results in declaration order, stopping at the first failing
mount.  The `collect` into a `HashMap` happens in `volume_path_map`. -/
def collect_mounts (container : Container) (volumes : List (String × VolumeRef)) :
    List VolumeMount → Except String (List (String × Option String))
  | [] => .ok []
  | vm :: rest =>
      match resolve_mount container volumes vm with
      | .error e => .error e
      | .ok p =>
          match collect_mounts container volumes rest with
          | .error e => .error e
          | .ok ps => .ok (p :: ps)

/-- `volume_path_map`: resolve every declared volume mount of the container,
failing as a whole on the first mount that does not resolve; on success the
pairs are collected into a `HashMap` keyed by host path
(`collect::<Result<HashMap<PathBuf, Option<PathBuf>>>>`), so mounts sharing
a resolved host path collapse into one entry holding the last such mount's
guest path. -/
def volume_path_map (container : Container) (volumes : List (String × VolumeRef)) :
    Except String (List (String × Option String)) :=
  match collect_mounts container volumes container.volume_mounts with
  | .error e => .error e
  | .ok l => .ok (l.foldl (fun m kv => minsert m kv.1 kv.2) [])

/-- The handle-registry critical section at the end of `Waiting::next`:
under the registry write lock, `entry(pod_key).or_insert_with(PodHandle::new)`
followed by `insert_container_handle`. -/
def registerHandle (pod : Pod) (container_key : String) (handle : ContainerHandle)
    (reg : Registry) : Registry :=
  let pod_handle :=
    match mfind reg (podKeyOf pod) with
    | some ph => ph
    | none => PodHandle.mk [] pod
  minsert reg (podKeyOf pod)
    (pod_handle.insert_container_handle container_key handle)

/-- The `allowed-domains` if-let block: absent means `None`, present means
the parsed value, a parse failure short-circuits with the parse error. -/
def parse_domains_annotation (ext : Externals) (pod : Pod) :
    Except String (Option (List String)) :=
  match mfind pod.annotations ALLOWED_DOMAINS_ANNOTATION_KEY with
  | none => .ok none
  | some ann =>
      match ext.parseAllowedDomains ann with
      | .ok ds => .ok (some ds)
      | .error pe => .error pe

/-- The `max-concurrent-requests` if-let block, evaluated after the
allowed-domains one. -/
def parse_max_annotation (ext : Externals) (pod : Pod) :
    Except String (Option Nat) :=
  match mfind pod.annotations MAX_CONNCURRENT_REQUESTS_ANNOTATION_KEY with
  | none => .ok none
  | some ann =>
      match ext.parseMaxConcurrentRequests ann with
      | .ok n => .ok (some n)
      | .error pe => .error pe

/-- `Waiting::next`, the whole startup transition: resource handoff and
volume resolution inside the run-context critical section, annotation
parsing, sandbox construction and start, and handle registration. -/
def Waiting.next (ext : Externals) (provider : ProviderState) (state : ContainerState)
    (container : Container) : NextResult :=
  let log_path := provider.log_path
  -- critical section: `state.run_context.write().await`
  match mfind state.run_context.modules container.name with
  | none =>
      { next_state := .terminated (moduleMissingMsg state.pod container) true
        run_context :=
          { state.run_context with
            modules := mremove state.run_context.modules container.name }
        handles := provider.handles
        activator_calls := [] }
  | some module_data =>
      let modules' := mremove state.run_context.modules container.name
      match volume_path_map container state.run_context.volumes with
      | .error e =>
          { next_state := .terminated (volumeFailMsg state.pod container e) true
            run_context := { state.run_context with modules := modules' }
            handles := provider.handles
            activator_calls := [] }
      | .ok container_volumes =>
          let container_envs :=
            (mfind state.run_context.env_vars container.name).getD []
          let run_context' : RunContext :=
            { modules := modules'
              volumes := state.run_context.volumes
              env_vars := mremove state.run_context.env_vars container.name }
          -- end of the critical section
          let env := mextend ext.base_env container_envs
          let args := container.args
          let (tx, rx) := mpsc_channel 8
          let name := state.pod.nspace ++ ":" ++ state.pod.name ++ ":" ++ container.name
          -- allowed-domains annotation, evaluated first
          match parse_domains_annotation ext state.pod with
          | .error pe =>
              { next_state :=
                  .terminated (annotationFailMsg ALLOWED_DOMAINS_ANNOTATION_KEY pe) true
                run_context := run_context'
                handles := provider.handles
                activator_calls := [] }
          | .ok allowed_domains =>
              match parse_max_annotation ext state.pod with
              | .error pe =>
                  { next_state :=
                      .terminated
                        (annotationFailMsg MAX_CONNCURRENT_REQUESTS_ANNOTATION_KEY pe) true
                    run_context := run_context'
                    handles := provider.handles
                    activator_calls := [] }
              | .ok max_concurrent_requests =>
                  let wasi_http_config : WasiHttpConfig :=
                    { allowed_domains := allowed_domains
                      max_concurrent_requests := max_concurrent_requests }
                  let a : WasiRuntimeNewArgs :=
                    { name := name
                      module_data := module_data
                      env := env
                      args := args
                      container_volumes := container_volumes
                      log_path := log_path
                      tx := tx
                      wasi_http_config := wasi_http_config }
                  match ext.newRuntime a with
                  | .error e =>
                      { next_state :=
                          .terminated (constructFailMsg state.pod container e) true
                        run_context := run_context'
                        handles := provider.handles
                        activator_calls := [a] }
                  | .ok runtime =>
                      match ext.startRuntime runtime with
                      | .error e =>
                          { next_state :=
                              .terminated (startFailMsg state.pod container e) true
                            run_context := run_context'
                            handles := provider.handles
                            activator_calls := [a] }
                      | .ok container_handle =>
                          { next_state := .running rx
                            run_context := run_context'
                            handles :=
                              registerHandle state.pod state.container_key
                                container_handle provider.handles
                            activator_calls := [a] }

/-! ### Association-map lemmas -/

theorem mfind_mremove_self {κ : Type u} {α : Type v} [DecidableEq κ]
    (m : List (κ × α)) (k : κ) : mfind (mremove m k) k = none := by
  induction m with
  | nil => rfl
  | cons p rest ih =>
      by_cases h : p.1 = k
      · simpa [mremove, h] using ih
      · simp [mremove, mfind, h, ih]

theorem mremove_eq_self_of_mfind_none {κ : Type u} {α : Type v} [DecidableEq κ]
    {m : List (κ × α)} {k : κ} (h : mfind m k = none) : mremove m k = m := by
  induction m with
  | nil => rfl
  | cons p rest ih =>
      by_cases hp : p.1 = k
      · simp [mfind, hp] at h
      · simp only [mfind, hp, if_neg hp] at h
        simp [mremove, hp, ih h]

theorem mfind_minsert_self {κ : Type u} {α : Type v} [DecidableEq κ]
    (m : List (κ × α)) (k : κ) (v : α) : mfind (minsert m k v) k = some v := by
  simp [minsert, mfind]

theorem mfind_mremove_ne {κ : Type u} {α : Type v} [DecidableEq κ]
    (m : List (κ × α)) {k k' : κ} (h : k' ≠ k) :
    mfind (mremove m k') k = mfind m k := by
  induction m with
  | nil => rfl
  | cons p rest ih =>
      by_cases hp : p.1 = k'
      · have hk : p.1 ≠ k := by rw [hp]; exact h
        simp [mremove, mfind, hp, hk, h, ih]
      · simp [mremove, mfind, hp, ih]

theorem mfind_minsert_ne {κ : Type u} {α : Type v} [DecidableEq κ]
    (m : List (κ × α)) {k k' : κ} (v : α) (h : k' ≠ k) :
    mfind (minsert m k' v) k = mfind m k := by
  simp [minsert, mfind, h, mfind_mremove_ne m h]

/-! ### Substring occurrence, used to state "the message names the pod". -/

/-- `strContains hay needle = true` iff `needle` occurs contiguously in `hay`. -/
def strContains (hay needle : String) : Bool :=
  (List.range (hay.data.length + 1)).any fun i => needle.data.isPrefixOf (hay.data.drop i)

theorem strContains_of_append (pre needle post : String) :
    strContains (pre ++ needle ++ post) needle = true := by
  unfold strContains
  rw [List.any_eq_true]
  refine ⟨pre.data.length, List.mem_range.mpr ?_, ?_⟩
  · have : (pre ++ needle ++ post).data = pre.data ++ (needle.data ++ post.data) := by
      simp [String.data_append]
    rw [this, List.length_append]
    omega
  · have : (pre ++ needle ++ post).data = pre.data ++ (needle.data ++ post.data) := by
      simp [String.data_append]
    rw [this, List.drop_left]
    exact List.isPrefixOf_iff_prefix.mpr (List.prefix_append _ _)

/-! ### General branch facts about the transition -/

/-- In every branch of the transition, the container's bytecode key has been
removed from the module map of the resulting run context. -/
theorem next_modules_eq (ext : Externals) (provider : ProviderState)
    (state : ContainerState) (container : Container) :
    (Waiting.next ext provider state container).run_context.modules =
      mremove state.run_context.modules container.name := by
  unfold Waiting.next
  repeat' split
  all_goals (dsimp only; repeat' split)
  all_goals rfl

/-- When the bytecode entry is absent, the transition reduces to the
`ModuleDataMissing` terminal branch. -/
theorem next_module_missing (ext : Externals) (provider : ProviderState)
    (state : ContainerState) (container : Container)
    (h : mfind state.run_context.modules container.name = none) :
    Waiting.next ext provider state container =
      { next_state := .terminated (moduleMissingMsg state.pod container) true
        run_context :=
          { state.run_context with
            modules := mremove state.run_context.modules container.name }
        handles := provider.handles
        activator_calls := [] } := by
  unfold Waiting.next
  rw [h]

/-- The run context left behind by a handoff that got past volume
resolution: both per-container entries removed, volumes untouched. -/
def handoffContext (state : ContainerState) (container : Container) : RunContext :=
  { modules := mremove state.run_context.modules container.name
    volumes := state.run_context.volumes
    env_vars := mremove state.run_context.env_vars container.name }

/-- The argument tuple `Waiting::next` hands to `WasiRuntime::new` on the
path that reaches it. -/
def activatorArgs (ext : Externals) (provider : ProviderState) (state : ContainerState)
    (container : Container) (module_data : ModuleData)
    (container_volumes : List (String × Option String))
    (allowed_domains : Option (List String)) (max_concurrent_requests : Option Nat) :
    WasiRuntimeNewArgs :=
  { name := state.pod.nspace ++ ":" ++ state.pod.name ++ ":" ++ container.name
    module_data := module_data
    env := mextend ext.base_env ((mfind state.run_context.env_vars container.name).getD [])
    args := container.args
    container_volumes := container_volumes
    log_path := provider.log_path
    tx := (mpsc_channel 8).1
    wasi_http_config :=
      { allowed_domains := allowed_domains
        max_concurrent_requests := max_concurrent_requests } }

/-- Volume-resolution failure branch: bytecode already removed, env map left
alone, no activator call. -/
theorem next_vol_error (ext : Externals) (provider : ProviderState)
    (state : ContainerState) (container : Container) (d : ModuleData) (e : String)
    (hm : mfind state.run_context.modules container.name = some d)
    (hv : volume_path_map container state.run_context.volumes = .error e) :
    Waiting.next ext provider state container =
      { next_state := .terminated (volumeFailMsg state.pod container e) true
        run_context :=
          { state.run_context with
            modules := mremove state.run_context.modules container.name }
        handles := provider.handles
        activator_calls := [] } := by
  unfold Waiting.next
  rw [hm, hv]

/-- Allowed-domains annotation failure branch. -/
theorem next_domains_error (ext : Externals) (provider : ProviderState)
    (state : ContainerState) (container : Container) (d : ModuleData)
    (vols : List (String × Option String)) (pe : String)
    (hm : mfind state.run_context.modules container.name = some d)
    (hv : volume_path_map container state.run_context.volumes = .ok vols)
    (hd : parse_domains_annotation ext state.pod = .error pe) :
    Waiting.next ext provider state container =
      { next_state :=
          .terminated (annotationFailMsg ALLOWED_DOMAINS_ANNOTATION_KEY pe) true
        run_context := handoffContext state container
        handles := provider.handles
        activator_calls := [] } := by
  unfold Waiting.next
  rw [hm, hv]
  dsimp only
  rw [hd]
  rfl

/-- Max-concurrent-requests annotation failure branch. -/
theorem next_max_error (ext : Externals) (provider : ProviderState)
    (state : ContainerState) (container : Container) (d : ModuleData)
    (vols : List (String × Option String)) (ds : Option (List String)) (pe : String)
    (hm : mfind state.run_context.modules container.name = some d)
    (hv : volume_path_map container state.run_context.volumes = .ok vols)
    (hd : parse_domains_annotation ext state.pod = .ok ds)
    (hx : parse_max_annotation ext state.pod = .error pe) :
    Waiting.next ext provider state container =
      { next_state :=
          .terminated (annotationFailMsg MAX_CONNCURRENT_REQUESTS_ANNOTATION_KEY pe) true
        run_context := handoffContext state container
        handles := provider.handles
        activator_calls := [] } := by
  unfold Waiting.next
  rw [hm, hv]
  dsimp only
  rw [hd]
  dsimp only
  rw [hx]
  rfl

/-- Runtime-construction failure branch: the activator was invoked once. -/
theorem next_construct_error (ext : Externals) (provider : ProviderState)
    (state : ContainerState) (container : Container) (d : ModuleData)
    (vols : List (String × Option String)) (ds : Option (List String))
    (mx : Option Nat) (e : String)
    (hm : mfind state.run_context.modules container.name = some d)
    (hv : volume_path_map container state.run_context.volumes = .ok vols)
    (hd : parse_domains_annotation ext state.pod = .ok ds)
    (hx : parse_max_annotation ext state.pod = .ok mx)
    (hc : ext.newRuntime (activatorArgs ext provider state container d vols ds mx) =
      .error e) :
    Waiting.next ext provider state container =
      { next_state := .terminated (constructFailMsg state.pod container e) true
        run_context := handoffContext state container
        handles := provider.handles
        activator_calls := [activatorArgs ext provider state container d vols ds mx] } := by
  unfold activatorArgs at hc
  dsimp only [mpsc_channel] at hc
  unfold Waiting.next
  rw [hm, hv]
  dsimp only
  rw [hd]
  dsimp only
  rw [hx]
  dsimp only
  rw [show (mpsc_channel 8) = (⟨8, 0⟩, ⟨8, 0⟩) from rfl]
  dsimp only
  rw [hc]
  rfl

/-- Runtime-start failure branch: the activator was invoked once. -/
theorem next_start_error (ext : Externals) (provider : ProviderState)
    (state : ContainerState) (container : Container) (d : ModuleData)
    (vols : List (String × Option String)) (ds : Option (List String))
    (mx : Option Nat) (rt : WasiRuntime) (e : String)
    (hm : mfind state.run_context.modules container.name = some d)
    (hv : volume_path_map container state.run_context.volumes = .ok vols)
    (hd : parse_domains_annotation ext state.pod = .ok ds)
    (hx : parse_max_annotation ext state.pod = .ok mx)
    (hc : ext.newRuntime (activatorArgs ext provider state container d vols ds mx) =
      .ok rt)
    (hs : ext.startRuntime rt = .error e) :
    Waiting.next ext provider state container =
      { next_state := .terminated (startFailMsg state.pod container e) true
        run_context := handoffContext state container
        handles := provider.handles
        activator_calls := [activatorArgs ext provider state container d vols ds mx] } := by
  unfold activatorArgs at hc
  dsimp only [mpsc_channel] at hc
  unfold Waiting.next
  rw [hm, hv]
  dsimp only
  rw [hd]
  dsimp only
  rw [hx]
  dsimp only
  rw [show (mpsc_channel 8) = (⟨8, 0⟩, ⟨8, 0⟩) from rfl]
  dsimp only
  rw [hc]
  dsimp only
  rw [hs]
  rfl

/-- Full success branch: next state `Running` with the consumer channel end,
handle registered under the pod's registry entry. -/
theorem next_success (ext : Externals) (provider : ProviderState)
    (state : ContainerState) (container : Container) (d : ModuleData)
    (vols : List (String × Option String)) (ds : Option (List String))
    (mx : Option Nat) (rt : WasiRuntime) (h : ContainerHandle)
    (hm : mfind state.run_context.modules container.name = some d)
    (hv : volume_path_map container state.run_context.volumes = .ok vols)
    (hd : parse_domains_annotation ext state.pod = .ok ds)
    (hx : parse_max_annotation ext state.pod = .ok mx)
    (hc : ext.newRuntime (activatorArgs ext provider state container d vols ds mx) =
      .ok rt)
    (hs : ext.startRuntime rt = .ok h) :
    Waiting.next ext provider state container =
      { next_state := .running (mpsc_channel 8).2
        run_context := handoffContext state container
        handles := registerHandle state.pod state.container_key h provider.handles
        activator_calls := [activatorArgs ext provider state container d vols ds mx] } := by
  unfold activatorArgs at hc
  dsimp only [mpsc_channel] at hc
  unfold Waiting.next
  rw [hm, hv]
  dsimp only
  rw [hd]
  dsimp only
  rw [hx]
  dsimp only
  rw [show (mpsc_channel 8) = (⟨8, 0⟩, ⟨8, 0⟩) from rfl]
  dsimp only
  rw [hc]
  dsimp only
  rw [hs]
  rfl

/-- Under a successful handoff and volume resolution, every later branch
leaves the run context at `handoffContext` (both entries removed). -/
theorem next_run_context_of_vol_ok (ext : Externals) (provider : ProviderState)
    (state : ContainerState) (container : Container) (d : ModuleData)
    (m : List (String × Option String))
    (hm : mfind state.run_context.modules container.name = some d)
    (hv : volume_path_map container state.run_context.volumes = .ok m) :
    (Waiting.next ext provider state container).run_context =
      handoffContext state container := by
  cases hdom : parse_domains_annotation ext state.pod with
  | error pe => rw [next_domains_error ext provider state container d m pe hm hv hdom]
  | ok ds =>
      cases hmax : parse_max_annotation ext state.pod with
      | error pe =>
          rw [next_max_error ext provider state container d m ds pe hm hv hdom hmax]
      | ok mx =>
          cases hc : ext.newRuntime (activatorArgs ext provider state container d m ds mx) with
          | error e =>
              rw [next_construct_error ext provider state container d m ds mx e
                hm hv hdom hmax hc]
          | ok rt =>
              cases hs : ext.startRuntime rt with
              | error e =>
                  rw [next_start_error ext provider state container d m ds mx rt e
                    hm hv hdom hmax hc hs]
              | ok hh =>
                  rw [next_success ext provider state container d m ds mx rt hh
                    hm hv hdom hmax hc hs]

/-! ### Volume resolver lemmas -/

theorem resolve_mount_ok_iff (container : Container)
    (volumes : List (String × VolumeRef)) (vm : VolumeMount) :
    (∃ x, resolve_mount container volumes vm = .ok x) ↔
      ∃ v p, mfind volumes vm.name = some v ∧ v.host_path = some p := by
  unfold resolve_mount
  cases hf : mfind volumes vm.name with
  | none => simp
  | some v =>
      cases hp : v.host_path with
      | none => simp [hp]
      | some p => simp [hp]

theorem collect_mounts_ok_iff (container : Container)
    (volumes : List (String × VolumeRef)) (mounts : List VolumeMount) :
    (∃ m, collect_mounts container volumes mounts = .ok m) ↔
      ∀ vm ∈ mounts, ∃ v p, mfind volumes vm.name = some v ∧ v.host_path = some p := by
  induction mounts with
  | nil => simp [collect_mounts]
  | cons vm rest ih =>
      constructor
      · rintro ⟨m, hm⟩ vm' hvm'
        unfold collect_mounts at hm
        cases hr : resolve_mount container volumes vm with
        | error e => rw [hr] at hm; exact absurd hm (by simp)
        | ok p =>
            rw [hr] at hm
            cases hrest : collect_mounts container volumes rest with
            | error e => rw [hrest] at hm; exact absurd hm (by simp)
            | ok ps =>
                rcases List.mem_cons.mp hvm' with h | h
                · subst h
                  exact (resolve_mount_ok_iff container volumes vm').mp ⟨p, hr⟩
                · exact (ih.mp ⟨ps, hrest⟩) vm' h
      · intro hall
        obtain ⟨p, hp⟩ := (resolve_mount_ok_iff container volumes vm).mpr
          (hall vm (List.mem_cons_self vm rest))
        obtain ⟨ps, hps⟩ := ih.mpr (fun vm' h => hall vm' (List.mem_cons_of_mem vm h))
        exact ⟨p :: ps, by unfold collect_mounts; rw [hp, hps]⟩

theorem resolve_mount_ok_of (container : Container)
    (volumes : List (String × VolumeRef)) (vm : VolumeMount) (v : VolumeRef)
    (p : String)
    (hf : mfind volumes vm.name = some v) (hp : v.host_path = some p) :
    resolve_mount container volumes vm = .ok (p, some (guest_path_of vm)) := by
  unfold resolve_mount
  rw [hf]
  dsimp only
  rw [hp]

theorem resolve_mount_ok_elim (container : Container)
    (volumes : List (String × VolumeRef)) (vm : VolumeMount)
    (x : String × Option String)
    (h : resolve_mount container volumes vm = .ok x) :
    ∃ v p, mfind volumes vm.name = some v ∧ v.host_path = some p ∧
      x = (p, some (guest_path_of vm)) := by
  unfold resolve_mount at h
  cases hf : mfind volumes vm.name with
  | none => rw [hf] at h; cases h
  | some v =>
      rw [hf] at h
      dsimp only at h
      cases hp : v.host_path with
      | none => rw [hp] at h; cases h
      | some p =>
          rw [hp] at h
          cases h
          exact ⟨v, p, rfl, hp, rfl⟩


/-- The mount list collected by `collect_mounts` consists exactly of the
per-mount resolution results: every resolving declared mount contributes
its pair, and every pair stems from some declared mount. -/
theorem collect_mounts_mem_of_resolve (container : Container)
    (volumes : List (String × VolumeRef)) :
    ∀ (mounts : List VolumeMount) (l : List (String × Option String)),
      collect_mounts container volumes mounts = .ok l →
      ((∀ vm ∈ mounts, ∀ x, resolve_mount container volumes vm = .ok x → x ∈ l) ∧
       (∀ x ∈ l, ∃ vm ∈ mounts, resolve_mount container volumes vm = .ok x)) := by
  intro mounts
  induction mounts with
  | nil =>
      intro l h
      unfold collect_mounts at h
      cases h
      exact ⟨fun vm hvm => absurd hvm (List.not_mem_nil vm),
        fun x hx => absurd hx (List.not_mem_nil x)⟩
  | cons vm rest ih =>
      intro l h
      unfold collect_mounts at h
      cases hr : resolve_mount container volumes vm with
      | error e => rw [hr] at h; cases h
      | ok p =>
          rw [hr] at h
          cases hrest : collect_mounts container volumes rest with
          | error e => rw [hrest] at h; cases h
          | ok ps =>
              rw [hrest] at h
              cases h
              obtain ⟨ih1, ih2⟩ := ih ps hrest
              refine ⟨?_, ?_⟩
              · intro vm' hvm' x hx
                rcases List.mem_cons.mp hvm' with he | hmm
                · subst he
                  rw [hr] at hx
                  cases hx
                  exact List.mem_cons_self _ _
                · exact List.mem_cons_of_mem _ (ih1 vm' hmm x hx)
              · intro x hx
                rcases List.mem_cons.mp hx with he | hmm
                · exact ⟨vm, List.mem_cons_self _ _, by rw [he]; exact hr⟩
                · obtain ⟨vm', hvm', hres⟩ := ih2 x hmm
                  exact ⟨vm', List.mem_cons_of_mem _ hvm', hres⟩

theorem mfind_foldl_minsert_not_mem {κ : Type u} {α : Type v} [DecidableEq κ]
    (l : List (κ × α)) (k : κ) (h : k ∉ l.map Prod.fst) :
    ∀ m0 : List (κ × α),
      mfind (l.foldl (fun m kv => minsert m kv.1 kv.2) m0) k = mfind m0 k := by
  induction l with
  | nil => intro m0; rfl
  | cons kv rest ih =>
      intro m0
      simp only [List.map_cons, List.mem_cons] at h
      push_neg at h
      rw [List.foldl_cons, ih h.2, mfind_minsert_ne _ _ (Ne.symm h.1)]

theorem mfind_foldl_minsert_mem_keys {κ : Type u} {α : Type v} [DecidableEq κ]
    (l : List (κ × α)) (k : κ) :
    ∀ m0 : List (κ × α), k ∈ l.map Prod.fst →
      ∃ g, mfind (l.foldl (fun m kv => minsert m kv.1 kv.2) m0) k = some g := by
  induction l with
  | nil => intro m0 h; cases h
  | cons kv rest ih =>
      intro m0 h
      by_cases hk : k ∈ rest.map Prod.fst
      · rw [List.foldl_cons]
        exact ih _ hk
      · have he : kv.1 = k := by
          rw [List.map_cons, List.mem_cons] at h
          rcases h with h | h
          · exact h.symm
          · exact absurd h hk
        rw [List.foldl_cons, mfind_foldl_minsert_not_mem rest k hk, ← he]
        exact ⟨kv.2, mfind_minsert_self m0 kv.1 kv.2⟩

theorem mem_of_mfind_foldl_minsert {κ : Type u} {α : Type v} [DecidableEq κ]
    (l : List (κ × α)) (k : κ) (g : α) :
    ∀ m0 : List (κ × α),
      mfind (l.foldl (fun m kv => minsert m kv.1 kv.2) m0) k = some g →
      (k, g) ∈ l ∨ mfind m0 k = some g := by
  induction l with
  | nil => intro m0 h; exact Or.inr h
  | cons kv rest ih =>
      intro m0 h
      rw [List.foldl_cons] at h
      rcases ih _ h with hmem | hfind
      · exact Or.inl (List.mem_cons_of_mem _ hmem)
      · by_cases hk : kv.1 = k
        · subst hk
          rw [mfind_minsert_self] at hfind
          cases hfind
          exact Or.inl (List.mem_cons_self _ _)
        · rw [mfind_minsert_ne _ _ hk] at hfind
          exact Or.inr hfind

theorem volume_path_map_ok_iff (container : Container)
    (volumes : List (String × VolumeRef)) :
    (∃ m, volume_path_map container volumes = .ok m) ↔
      (∃ l, collect_mounts container volumes container.volume_mounts = .ok l) := by
  unfold volume_path_map
  cases h : collect_mounts container volumes container.volume_mounts with
  | error e => simp
  | ok l => simp

theorem volume_path_map_ok_elim (container : Container)
    (volumes : List (String × VolumeRef)) (m : List (String × Option String))
    (h : volume_path_map container volumes = .ok m) :
    ∃ l, collect_mounts container volumes container.volume_mounts = .ok l ∧
      m = l.foldl (fun acc kv => minsert acc kv.1 kv.2) [] := by
  unfold volume_path_map at h
  cases hc : collect_mounts container volumes container.volume_mounts with
  | error e => rw [hc] at h; cases h
  | ok l =>
      rw [hc] at h
      cases h
      exact ⟨l, rfl, rfl⟩

/-! ### Annotation-step lemmas -/

theorem parse_domains_none_of (ext : Externals) (pod : Pod)
    (h : mfind pod.annotations ALLOWED_DOMAINS_ANNOTATION_KEY = none) :
    parse_domains_annotation ext pod = .ok none := by
  unfold parse_domains_annotation
  rw [h]

theorem parse_domains_ok_of (ext : Externals) (pod : Pod) (s : String)
    (ds : List String)
    (h1 : mfind pod.annotations ALLOWED_DOMAINS_ANNOTATION_KEY = some s)
    (h2 : ext.parseAllowedDomains s = .ok ds) :
    parse_domains_annotation ext pod = .ok (some ds) := by
  unfold parse_domains_annotation
  rw [h1]
  dsimp only
  rw [h2]

theorem parse_domains_error_of (ext : Externals) (pod : Pod) (s pe : String)
    (h1 : mfind pod.annotations ALLOWED_DOMAINS_ANNOTATION_KEY = some s)
    (h2 : ext.parseAllowedDomains s = .error pe) :
    parse_domains_annotation ext pod = .error pe := by
  unfold parse_domains_annotation
  rw [h1]
  dsimp only
  rw [h2]

theorem parse_max_none_of (ext : Externals) (pod : Pod)
    (h : mfind pod.annotations MAX_CONNCURRENT_REQUESTS_ANNOTATION_KEY = none) :
    parse_max_annotation ext pod = .ok none := by
  unfold parse_max_annotation
  rw [h]

theorem parse_max_ok_of (ext : Externals) (pod : Pod) (s : String) (n : Nat)
    (h1 : mfind pod.annotations MAX_CONNCURRENT_REQUESTS_ANNOTATION_KEY = some s)
    (h2 : ext.parseMaxConcurrentRequests s = .ok n) :
    parse_max_annotation ext pod = .ok (some n) := by
  unfold parse_max_annotation
  rw [h1]
  dsimp only
  rw [h2]

theorem parse_max_error_of (ext : Externals) (pod : Pod) (s pe : String)
    (h1 : mfind pod.annotations MAX_CONNCURRENT_REQUESTS_ANNOTATION_KEY = some s)
    (h2 : ext.parseMaxConcurrentRequests s = .error pe) :
    parse_max_annotation ext pod = .error pe := by
  unfold parse_max_annotation
  rw [h1]
  dsimp only
  rw [h2]

/-- When both annotation steps pass, the activator is invoked exactly once,
with the parsed configuration, whatever the construction and start
outcomes. -/
theorem next_calls_of_annotations_ok (ext : Externals) (provider : ProviderState)
    (state : ContainerState) (container : Container) (d : ModuleData)
    (vols : List (String × Option String)) (ds : Option (List String)) (mx : Option Nat)
    (hm : mfind state.run_context.modules container.name = some d)
    (hv : volume_path_map container state.run_context.volumes = .ok vols)
    (hd : parse_domains_annotation ext state.pod = .ok ds)
    (hx : parse_max_annotation ext state.pod = .ok mx) :
    (Waiting.next ext provider state container).activator_calls =
      [activatorArgs ext provider state container d vols ds mx] := by
  cases hc : ext.newRuntime (activatorArgs ext provider state container d vols ds mx) with
  | error e =>
      rw [next_construct_error ext provider state container d vols ds mx e hm hv hd hx hc]
  | ok rt =>
      cases hs : ext.startRuntime rt with
      | error e =>
          rw [next_start_error ext provider state container d vols ds mx rt e
            hm hv hd hx hc hs]
      | ok hh =>
          rw [next_success ext provider state container d vols ds mx rt hh
            hm hv hd hx hc hs]

/-! ### Concrete fixtures for witnesses and counterexamples -/

/-- An external world whose collaborators all succeed. -/
def extOk : Externals :=
  { base_env := [("BASE", "1")]
    parseAllowedDomains := fun s => .ok [s]
    parseMaxConcurrentRequests := fun _ => .ok 7
    newRuntime := fun _ => .ok 5
    startRuntime := fun _ => .ok 9 }

/-- An external world whose two annotation decoders always fail. -/
def extBadParse : Externals :=
  { base_env := []
    parseAllowedDomains := fun _ => .error "ejson"
    parseMaxConcurrentRequests := fun _ => .error "eint"
    newRuntime := fun _ => .ok 5
    startRuntime := fun _ => .ok 9 }

def provFix : ProviderState := { log_path := "/log", handles := [] }

def workerMount : VolumeMount := { name := "data", mount_path := "/data", sub_path := none }

def worker : Container := { name := "worker", args := ["arg0"], volume_mounts := [workerMount] }

/-- Run context with bytecode, a resolved volume and an env override for `worker`. -/
def ctxFull : RunContext :=
  { modules := [("worker", [1, 2])]
    volumes := [("data", ⟨some "/host/data"⟩)]
    env_vars := [("worker", [("K", "V")])] }

/-- Run context whose volume map lacks the `data` volume. -/
def ctxNoVol : RunContext :=
  { modules := [("worker", [1, 2])]
    volumes := []
    env_vars := [("worker", [("K", "V")])] }

/-- Run context with no bytecode entry for `worker`. -/
def ctxNoMod : RunContext :=
  { modules := []
    volumes := [("data", ⟨some "/host/data"⟩)]
    env_vars := [("worker", [("K", "V")])] }

def podPlain : Pod := { nspace := "ns", name := "mypod", annotations := [] }

def stFull : ContainerState :=
  { pod := podPlain, container_key := "wk", run_context := ctxFull }

def stNoVol : ContainerState :=
  { pod := podPlain, container_key := "wk", run_context := ctxNoVol }

def stNoMod : ContainerState :=
  { pod := podPlain, container_key := "wk", run_context := ctxNoMod }

/-! ### Claims -/

/-- Claim C1: invoking the Waiting transition twice for the same container
against the same run context succeeds at most once — the first invocation
removes the container's bytecode entry permanently, and the second finds it
absent and terminates with the module-data-missing failure. -/
theorem claim_C1_exactly_once_consumption (ext ext' : Externals)
    (provider provider' : ProviderState) (state : ContainerState)
    (container : Container) :
    mfind (Waiting.next ext provider state container).run_context.modules
        container.name = none ∧
    (Waiting.next ext' provider'
        { state with
          run_context := (Waiting.next ext provider state container).run_context }
        container).next_state =
      .terminated (moduleMissingMsg state.pod container) true := by
  have h1 : mfind (Waiting.next ext provider state container).run_context.modules
      container.name = none := by
    rw [next_modules_eq]; exact mfind_mremove_self _ _
  refine ⟨h1, ?_⟩
  rw [next_module_missing ext' provider' _ container h1]

/-- Claim C2 counterexample: with the bytecode entry present but an
undeclared volume, the transition consumes the bytecode yet the env-override
entry survives the handoff critical section, contradicting "both entries are
removed regardless of whether volume resolution succeeds or fails". -/
theorem claim_C2_counterexample :
    mfind stNoVol.run_context.modules worker.name = some [1, 2] ∧
    mfind (Waiting.next extOk provFix stNoVol worker).run_context.env_vars
        worker.name = some [("K", "V")] := by
  decide

/-- Claim C2 (amended): when the bytecode entry is present, the handoff
removes it regardless of later outcomes, but the env-override entry is
removed exactly when volume resolution succeeds; on volume-resolution
failure the env map is left unchanged. -/
theorem claim_C2_amended_handoff (ext : Externals) (provider : ProviderState)
    (state : ContainerState) (container : Container) (d : ModuleData)
    (hm : mfind state.run_context.modules container.name = some d) :
    (Waiting.next ext provider state container).run_context.modules =
        mremove state.run_context.modules container.name ∧
    (∀ e, volume_path_map container state.run_context.volumes = .error e →
      (Waiting.next ext provider state container).run_context.env_vars =
        state.run_context.env_vars) ∧
    (∀ m, volume_path_map container state.run_context.volumes = .ok m →
      (Waiting.next ext provider state container).run_context.env_vars =
        mremove state.run_context.env_vars container.name) := by
  refine ⟨next_modules_eq ext provider state container, ?_, ?_⟩
  · intro e he
    rw [next_vol_error ext provider state container d e hm he]
  · intro m hv
    rw [next_run_context_of_vol_ok ext provider state container d m hm hv]
    rfl

/-- Witness for the amended C2 at concrete inputs: env entry removed on the
successful-volume run, retained on the failed-volume run. -/
theorem claim_C2_witness :
    (Waiting.next extOk provFix stFull worker).run_context.env_vars =
        mremove stFull.run_context.env_vars worker.name ∧
    (Waiting.next extOk provFix stNoVol worker).run_context.env_vars =
        stNoVol.run_context.env_vars :=
  ⟨(claim_C2_amended_handoff extOk provFix stFull worker [1, 2] (by decide)).2.2
      [("/host/data", some "/data")] (by rfl),
   (claim_C2_amended_handoff extOk provFix stNoVol worker [1, 2] (by decide)).2.1
      ("no volume with the name of data found for container worker") (by rfl)⟩

/-- Claim C10: a transition that fails with module data missing leaves the
run context and the handle registry entirely unchanged and never invokes
the activator. -/
theorem claim_C10_module_missing_leaves_state_unchanged (ext : Externals)
    (provider : ProviderState) (state : ContainerState) (container : Container)
    (h : mfind state.run_context.modules container.name = none) :
    (Waiting.next ext provider state container).next_state =
        .terminated (moduleMissingMsg state.pod container) true ∧
    (Waiting.next ext provider state container).run_context = state.run_context ∧
    (Waiting.next ext provider state container).handles = provider.handles ∧
    (Waiting.next ext provider state container).activator_calls = [] := by
  rw [next_module_missing ext provider state container h]
  refine ⟨rfl, ?_, rfl, rfl⟩
  rw [mremove_eq_self_of_mfind_none h]

/-- Witness for C10 at a concrete input. -/
theorem claim_C10_witness :
    (Waiting.next extOk provFix stNoMod worker).next_state =
        .terminated (moduleMissingMsg stNoMod.pod worker) true ∧
    (Waiting.next extOk provFix stNoMod worker).run_context = stNoMod.run_context ∧
    (Waiting.next extOk provFix stNoMod worker).handles = provFix.handles ∧
    (Waiting.next extOk provFix stNoMod worker).activator_calls = [] :=
  claim_C10_module_missing_leaves_state_unchanged extOk provFix stNoMod worker (by decide)

/-- Claim C3: volume resolution is all-or-nothing — the host-path-to-guest-
path mapping exists iff every declared mount resolves; when it does, every
resolvable mount's host path is a key of the mapping and every entry stems
from some declared mount (mounts sharing a resolved host path collapse into
one entry, as with the source's `HashMap` collect); on a resolution failure
no mapping is produced and the sandbox activator is never invoked by the
transition. -/
theorem claim_C3_volume_all_or_nothing (container : Container)
    (volumes : List (String × VolumeRef)) :
    ((∃ m, volume_path_map container volumes = .ok m) ↔
      ∀ vm ∈ container.volume_mounts,
        ∃ v p, mfind volumes vm.name = some v ∧ v.host_path = some p) ∧
    (∀ m, volume_path_map container volumes = .ok m →
      ((∀ vm ∈ container.volume_mounts, ∀ v p, mfind volumes vm.name = some v →
          v.host_path = some p → ∃ g, mfind m p = some g) ∧
       (∀ p g, mfind m p = some g →
          ∃ vm ∈ container.volume_mounts, ∃ v, mfind volumes vm.name = some v ∧
            v.host_path = some p ∧ g = some (guest_path_of vm)))) ∧
    (∀ ext provider state e,
      volume_path_map container state.run_context.volumes = .error e →
      (Waiting.next ext provider state container).activator_calls = []) := by
  refine ⟨(volume_path_map_ok_iff container volumes).trans
      (collect_mounts_ok_iff container volumes container.volume_mounts), ?_, ?_⟩
  · intro m hm
    obtain ⟨l, hl, hml⟩ := volume_path_map_ok_elim container volumes m hm
    subst hml
    constructor
    · intro vm hvm v p hf hp
      have hx : (p, some (guest_path_of vm)) ∈ l :=
        (collect_mounts_mem_of_resolve container volumes container.volume_mounts l hl).1
          vm hvm _ (resolve_mount_ok_of container volumes vm v p hf hp)
      exact mfind_foldl_minsert_mem_keys l p [] (List.mem_map.mpr ⟨_, hx, rfl⟩)
    · intro p g hg
      rcases mem_of_mfind_foldl_minsert l p g [] hg with hmem | hnone
      · obtain ⟨vm, hvm, hres⟩ :=
          (collect_mounts_mem_of_resolve container volumes container.volume_mounts
            l hl).2 (p, g) hmem
        obtain ⟨v, q, hf, hq, hx⟩ :=
          resolve_mount_ok_elim container volumes vm (p, g) hres
        have hpq : p = q := congrArg Prod.fst hx
        have hgv : g = some (guest_path_of vm) := congrArg Prod.snd hx
        refine ⟨vm, hvm, v, hf, ?_, hgv⟩
        rw [hpq]
        exact hq
      · simp [mfind] at hnone
  · intro ext provider state e he
    cases hm : mfind state.run_context.modules container.name with
    | none => rw [next_module_missing ext provider state container hm]
    | some d => rw [next_vol_error ext provider state container d e hm he]

/-- Witness for C3 at concrete inputs: a fully resolving container whose
mount's host path is mapped, with every map entry traced back to a declared
mount, and a failing container on which the activator is not called. -/
theorem claim_C3_witness :
    (∀ vm ∈ worker.volume_mounts,
      ∃ v p, mfind ctxFull.volumes vm.name = some v ∧ v.host_path = some p) ∧
    ((∀ vm ∈ worker.volume_mounts, ∀ v p, mfind ctxFull.volumes vm.name = some v →
        v.host_path = some p →
        ∃ g, mfind [("/host/data", some "/data")] p = some g) ∧
     (∀ p g, mfind [("/host/data", some "/data")] p = some g →
        ∃ vm ∈ worker.volume_mounts, ∃ v, mfind ctxFull.volumes vm.name = some v ∧
          v.host_path = some p ∧ g = some (guest_path_of vm))) ∧
    (Waiting.next extOk provFix stNoVol worker).activator_calls = [] :=
  ⟨(claim_C3_volume_all_or_nothing worker ctxFull.volumes).1.mp
      ⟨[("/host/data", some "/data")], rfl⟩,
   (claim_C3_volume_all_or_nothing worker ctxFull.volumes).2.1
      [("/host/data", some "/data")] (by rfl),
   (claim_C3_volume_all_or_nothing worker ctxNoVol.volumes).2.2 extOk provFix stNoVol
      ("no volume with the name of data found for container worker") (by rfl)⟩

/-- Claim C4: per-mount resolution — an undeclared volume fails with the
volume-not-declared error, a declared but unresolved volume fails with the
volume-not-ready error, and otherwise the resolved host path is mapped to
the mount path joined with the sub-path when present, or the mount path
alone. -/
theorem claim_C4_per_mount_resolution (container : Container)
    (volumes : List (String × VolumeRef)) (vm : VolumeMount) :
    (mfind volumes vm.name = none →
      resolve_mount container volumes vm =
        .error ("no volume with the name of " ++ vm.name ++ " found for container " ++
          container.name)) ∧
    (∀ v, mfind volumes vm.name = some v → v.host_path = none →
      resolve_mount container volumes vm =
        .error ("Volume " ++ vm.name ++ " has not been mounted yet")) ∧
    (∀ v p, mfind volumes vm.name = some v → v.host_path = some p →
      resolve_mount container volumes vm =
        .ok (p, some (match vm.sub_path with
                      | none => vm.mount_path
                      | some sp => vm.mount_path ++ "/" ++ sp))) := by
  refine ⟨?_, ?_, ?_⟩
  · intro h
    unfold resolve_mount
    rw [h]
  · intro v hf hp
    unfold resolve_mount
    rw [hf]
    dsimp only
    rw [hp]
  · intro v p hf hp
    unfold resolve_mount
    rw [hf]
    dsimp only
    rw [hp]
    rfl

/-- Witness for C4: the three per-mount outcomes at concrete inputs. -/
theorem claim_C4_witness :
    resolve_mount worker [] workerMount =
        .error ("no volume with the name of " ++ workerMount.name ++
          " found for container " ++ worker.name) ∧
    resolve_mount worker [("data", ⟨none⟩)] workerMount =
        .error ("Volume " ++ workerMount.name ++ " has not been mounted yet") ∧
    resolve_mount worker ctxFull.volumes workerMount =
        .ok ("/host/data", some (match workerMount.sub_path with
                                 | none => workerMount.mount_path
                                 | some sp => workerMount.mount_path ++ "/" ++ sp)) :=
  ⟨(claim_C4_per_mount_resolution worker [] workerMount).1 (by rfl),
   (claim_C4_per_mount_resolution worker [("data", ⟨none⟩)] workerMount).2.1
      ⟨none⟩ (by rfl) (by rfl),
   (claim_C4_per_mount_resolution worker ctxFull.volumes workerMount).2.2
      ⟨some "/host/data"⟩ "/host/data" (by rfl) (by rfl)⟩

/-- Pod with both annotations set (values the failing decoders reject and
the succeeding decoders accept). -/
def podBoth : Pod :=
  { nspace := "ns", name := "mypod"
    annotations := [(ALLOWED_DOMAINS_ANNOTATION_KEY, "example.com"),
                    (MAX_CONNCURRENT_REQUESTS_ANNOTATION_KEY, "7")] }

/-- Pod with only the max-concurrent-requests annotation. -/
def podMax : Pod :=
  { nspace := "ns", name := "mypod"
    annotations := [(MAX_CONNCURRENT_REQUESTS_ANNOTATION_KEY, "7")] }

/-- Pod with only the allowed-domains annotation. -/
def podDom : Pod :=
  { nspace := "ns", name := "mypod"
    annotations := [(ALLOWED_DOMAINS_ANNOTATION_KEY, "example.com")] }

def stBoth : ContainerState :=
  { pod := podBoth, container_key := "wk", run_context := ctxFull }

def stMax : ContainerState :=
  { pod := podMax, container_key := "wk", run_context := ctxFull }

def stDom : ContainerState :=
  { pod := podDom, container_key := "wk", run_context := ctxFull }

/-- Claim C5: a malformed allowed-domains annotation and a malformed
max-concurrent-requests annotation each independently terminate the
transition with the corresponding annotation parse error and zero activator
invocations, and when both are malformed the allowed-domains error
surfaces because it is evaluated first. -/
theorem claim_C5_malformed_annotation_rejection (ext : Externals)
    (provider : ProviderState) (state : ContainerState) (container : Container)
    (d : ModuleData) (vols : List (String × Option String))
    (hm : mfind state.run_context.modules container.name = some d)
    (hv : volume_path_map container state.run_context.volumes = .ok vols) :
    (∀ s pe, mfind state.pod.annotations ALLOWED_DOMAINS_ANNOTATION_KEY = some s →
      ext.parseAllowedDomains s = .error pe →
      (Waiting.next ext provider state container).next_state =
          .terminated (annotationFailMsg ALLOWED_DOMAINS_ANNOTATION_KEY pe) true ∧
      (Waiting.next ext provider state container).activator_calls = []) ∧
    (∀ s pe, mfind state.pod.annotations ALLOWED_DOMAINS_ANNOTATION_KEY = none →
      mfind state.pod.annotations MAX_CONNCURRENT_REQUESTS_ANNOTATION_KEY = some s →
      ext.parseMaxConcurrentRequests s = .error pe →
      (Waiting.next ext provider state container).next_state =
          .terminated (annotationFailMsg MAX_CONNCURRENT_REQUESTS_ANNOTATION_KEY pe) true ∧
      (Waiting.next ext provider state container).activator_calls = []) ∧
    (∀ s pe t pe', mfind state.pod.annotations ALLOWED_DOMAINS_ANNOTATION_KEY = some s →
      ext.parseAllowedDomains s = .error pe →
      mfind state.pod.annotations MAX_CONNCURRENT_REQUESTS_ANNOTATION_KEY = some t →
      ext.parseMaxConcurrentRequests t = .error pe' →
      (Waiting.next ext provider state container).next_state =
          .terminated (annotationFailMsg ALLOWED_DOMAINS_ANNOTATION_KEY pe) true) := by
  refine ⟨?_, ?_, ?_⟩
  · intro s pe h1 h2
    rw [next_domains_error ext provider state container d vols pe hm hv
      (parse_domains_error_of ext state.pod s pe h1 h2)]
    exact ⟨rfl, rfl⟩
  · intro s pe h0 h1 h2
    rw [next_max_error ext provider state container d vols none pe hm hv
      (parse_domains_none_of ext state.pod h0)
      (parse_max_error_of ext state.pod s pe h1 h2)]
    exact ⟨rfl, rfl⟩
  · intro s pe t pe' h1 h2 _ _
    rw [next_domains_error ext provider state container d vols pe hm hv
      (parse_domains_error_of ext state.pod s pe h1 h2)]

/-- Witness for C5: the failing decoders on a pod with both annotations and
on a pod with only the max annotation. -/
theorem claim_C5_witness :
    ((Waiting.next extBadParse provFix stBoth worker).next_state =
          .terminated (annotationFailMsg ALLOWED_DOMAINS_ANNOTATION_KEY "ejson") true ∧
      (Waiting.next extBadParse provFix stBoth worker).activator_calls = []) ∧
    ((Waiting.next extBadParse provFix stMax worker).next_state =
          .terminated (annotationFailMsg MAX_CONNCURRENT_REQUESTS_ANNOTATION_KEY "eint")
            true ∧
      (Waiting.next extBadParse provFix stMax worker).activator_calls = []) ∧
    (Waiting.next extBadParse provFix stBoth worker).next_state =
        .terminated (annotationFailMsg ALLOWED_DOMAINS_ANNOTATION_KEY "ejson") true :=
  ⟨(claim_C5_malformed_annotation_rejection extBadParse provFix stBoth worker
      [1, 2] [("/host/data", some "/data")] (by decide) (by rfl)).1
      "example.com" "ejson" (by decide) (by rfl),
   (claim_C5_malformed_annotation_rejection extBadParse provFix stMax worker
      [1, 2] [("/host/data", some "/data")] (by decide) (by rfl)).2.1
      "7" "eint" (by decide) (by decide) (by rfl),
   (claim_C5_malformed_annotation_rejection extBadParse provFix stBoth worker
      [1, 2] [("/host/data", some "/data")] (by decide) (by rfl)).2.2
      "example.com" "ejson" "7" "eint" (by decide) (by rfl) (by decide) (by rfl)⟩

/-- Claim C6: the two runtime-configuration fields are independent with
absent-means-default semantics — for each of the four presence
combinations, the configuration handed to the activator has each unset
field equal to `none` and each set field equal to the parsed value. -/
theorem claim_C6_annotation_independence (ext : Externals)
    (provider : ProviderState) (state : ContainerState) (container : Container)
    (d : ModuleData) (vols : List (String × Option String))
    (hm : mfind state.run_context.modules container.name = some d)
    (hv : volume_path_map container state.run_context.volumes = .ok vols) :
    (mfind state.pod.annotations ALLOWED_DOMAINS_ANNOTATION_KEY = none →
      mfind state.pod.annotations MAX_CONNCURRENT_REQUESTS_ANNOTATION_KEY = none →
      ∃ a, (Waiting.next ext provider state container).activator_calls = [a] ∧
        a.wasi_http_config =
          { allowed_domains := none, max_concurrent_requests := none }) ∧
    (∀ s ds, mfind state.pod.annotations ALLOWED_DOMAINS_ANNOTATION_KEY = some s →
      ext.parseAllowedDomains s = .ok ds →
      mfind state.pod.annotations MAX_CONNCURRENT_REQUESTS_ANNOTATION_KEY = none →
      ∃ a, (Waiting.next ext provider state container).activator_calls = [a] ∧
        a.wasi_http_config =
          { allowed_domains := some ds, max_concurrent_requests := none }) ∧
    (∀ t n, mfind state.pod.annotations ALLOWED_DOMAINS_ANNOTATION_KEY = none →
      mfind state.pod.annotations MAX_CONNCURRENT_REQUESTS_ANNOTATION_KEY = some t →
      ext.parseMaxConcurrentRequests t = .ok n →
      ∃ a, (Waiting.next ext provider state container).activator_calls = [a] ∧
        a.wasi_http_config =
          { allowed_domains := none, max_concurrent_requests := some n }) ∧
    (∀ s ds t n, mfind state.pod.annotations ALLOWED_DOMAINS_ANNOTATION_KEY = some s →
      ext.parseAllowedDomains s = .ok ds →
      mfind state.pod.annotations MAX_CONNCURRENT_REQUESTS_ANNOTATION_KEY = some t →
      ext.parseMaxConcurrentRequests t = .ok n →
      ∃ a, (Waiting.next ext provider state container).activator_calls = [a] ∧
        a.wasi_http_config =
          { allowed_domains := some ds, max_concurrent_requests := some n }) := by
  refine ⟨?_, ?_, ?_, ?_⟩
  · intro h1 h2
    exact ⟨activatorArgs ext provider state container d vols none none,
      next_calls_of_annotations_ok ext provider state container d vols none none hm hv
        (parse_domains_none_of ext state.pod h1) (parse_max_none_of ext state.pod h2),
      rfl⟩
  · intro s ds h1 h2 h3
    exact ⟨activatorArgs ext provider state container d vols (some ds) none,
      next_calls_of_annotations_ok ext provider state container d vols (some ds) none
        hm hv (parse_domains_ok_of ext state.pod s ds h1 h2)
        (parse_max_none_of ext state.pod h3),
      rfl⟩
  · intro t n h1 h2 h3
    exact ⟨activatorArgs ext provider state container d vols none (some n),
      next_calls_of_annotations_ok ext provider state container d vols none (some n)
        hm hv (parse_domains_none_of ext state.pod h1)
        (parse_max_ok_of ext state.pod t n h2 h3),
      rfl⟩
  · intro s ds t n h1 h2 h3 h4
    exact ⟨activatorArgs ext provider state container d vols (some ds) (some n),
      next_calls_of_annotations_ok ext provider state container d vols (some ds) (some n)
        hm hv (parse_domains_ok_of ext state.pod s ds h1 h2)
        (parse_max_ok_of ext state.pod t n h3 h4),
      rfl⟩

/-- Witness for C6: all four annotation combinations with the succeeding
decoders. -/
theorem claim_C6_witness :
    (∃ a, (Waiting.next extOk provFix stFull worker).activator_calls = [a] ∧
      a.wasi_http_config =
        { allowed_domains := none, max_concurrent_requests := none }) ∧
    (∃ a, (Waiting.next extOk provFix stDom worker).activator_calls = [a] ∧
      a.wasi_http_config =
        { allowed_domains := some ["example.com"], max_concurrent_requests := none }) ∧
    (∃ a, (Waiting.next extOk provFix stMax worker).activator_calls = [a] ∧
      a.wasi_http_config =
        { allowed_domains := none, max_concurrent_requests := some 7 }) ∧
    (∃ a, (Waiting.next extOk provFix stBoth worker).activator_calls = [a] ∧
      a.wasi_http_config =
        { allowed_domains := some ["example.com"], max_concurrent_requests := some 7 }) :=
  ⟨(claim_C6_annotation_independence extOk provFix stFull worker
      [1, 2] [("/host/data", some "/data")] (by decide) (by rfl)).1
      (by decide) (by decide),
   (claim_C6_annotation_independence extOk provFix stDom worker
      [1, 2] [("/host/data", some "/data")] (by decide) (by rfl)).2.1
      "example.com" ["example.com"] (by decide) (by rfl) (by decide),
   (claim_C6_annotation_independence extOk provFix stMax worker
      [1, 2] [("/host/data", some "/data")] (by decide) (by rfl)).2.2.1
      "7" 7 (by decide) (by decide) (by rfl),
   (claim_C6_annotation_independence extOk provFix stBoth worker
      [1, 2] [("/host/data", some "/data")] (by decide) (by rfl)).2.2.2
      "example.com" ["example.com"] "7" 7 (by decide) (by rfl) (by decide) (by rfl)⟩

/-- An external world whose runtime construction fails. -/
def extConstructFail : Externals :=
  { base_env := []
    parseAllowedDomains := fun s => .ok [s]
    parseMaxConcurrentRequests := fun _ => .ok 7
    newRuntime := fun _ => .error "ec"
    startRuntime := fun _ => .ok 9 }

/-- An external world whose runtime start fails. -/
def extStartFail : Externals :=
  { base_env := []
    parseAllowedDomains := fun s => .ok [s]
    parseMaxConcurrentRequests := fun _ => .ok 7
    newRuntime := fun _ => .ok 5
    startRuntime := fun _ => .error "es" }

/-- Claim C7 counterexample: on the allowed-domains annotation failure path
the transition terminates with an error message that names neither the pod
nor the container, refuting "every failure path yields a message that names
the pod, the container, and the failure". -/
theorem claim_C7_counterexample :
    (Waiting.next extBadParse provFix stBoth worker).next_state =
        .terminated (annotationFailMsg ALLOWED_DOMAINS_ANNOTATION_KEY "ejson") true ∧
    strContains (annotationFailMsg ALLOWED_DOMAINS_ANNOTATION_KEY "ejson")
        stBoth.pod.name = false ∧
    strContains (annotationFailMsg ALLOWED_DOMAINS_ANNOTATION_KEY "ejson")
        worker.name = false := by
  decide

/-- Claim C7 (amended): every failure path terminates with the error flag
set; the module-missing, volume, construction and start failures carry a
message naming the pod, the container and the failure, while the two
annotation parse failures carry a message naming the annotation key and the
parse error instead. -/
theorem claim_C7_amended_failure_paths (ext : Externals) (provider : ProviderState)
    (state : ContainerState) (container : Container) :
    (mfind state.run_context.modules container.name = none →
      (Waiting.next ext provider state container).next_state =
          .terminated (moduleMissingMsg state.pod container) true ∧
      strContains (moduleMissingMsg state.pod container) state.pod.name = true ∧
      strContains (moduleMissingMsg state.pod container) container.name = true) ∧
    (∀ d e, mfind state.run_context.modules container.name = some d →
      volume_path_map container state.run_context.volumes = .error e →
      (Waiting.next ext provider state container).next_state =
          .terminated (volumeFailMsg state.pod container e) true ∧
      strContains (volumeFailMsg state.pod container e) state.pod.name = true ∧
      strContains (volumeFailMsg state.pod container e) container.name = true ∧
      strContains (volumeFailMsg state.pod container e) e = true) ∧
    (∀ d vols pe, mfind state.run_context.modules container.name = some d →
      volume_path_map container state.run_context.volumes = .ok vols →
      parse_domains_annotation ext state.pod = .error pe →
      (Waiting.next ext provider state container).next_state =
          .terminated (annotationFailMsg ALLOWED_DOMAINS_ANNOTATION_KEY pe) true ∧
      strContains (annotationFailMsg ALLOWED_DOMAINS_ANNOTATION_KEY pe)
          ALLOWED_DOMAINS_ANNOTATION_KEY = true ∧
      strContains (annotationFailMsg ALLOWED_DOMAINS_ANNOTATION_KEY pe) pe = true) ∧
    (∀ d vols ds pe, mfind state.run_context.modules container.name = some d →
      volume_path_map container state.run_context.volumes = .ok vols →
      parse_domains_annotation ext state.pod = .ok ds →
      parse_max_annotation ext state.pod = .error pe →
      (Waiting.next ext provider state container).next_state =
          .terminated (annotationFailMsg MAX_CONNCURRENT_REQUESTS_ANNOTATION_KEY pe) true ∧
      strContains (annotationFailMsg MAX_CONNCURRENT_REQUESTS_ANNOTATION_KEY pe)
          MAX_CONNCURRENT_REQUESTS_ANNOTATION_KEY = true ∧
      strContains (annotationFailMsg MAX_CONNCURRENT_REQUESTS_ANNOTATION_KEY pe) pe =
          true) ∧
    (∀ d vols ds mx e, mfind state.run_context.modules container.name = some d →
      volume_path_map container state.run_context.volumes = .ok vols →
      parse_domains_annotation ext state.pod = .ok ds →
      parse_max_annotation ext state.pod = .ok mx →
      ext.newRuntime (activatorArgs ext provider state container d vols ds mx) =
        .error e →
      (Waiting.next ext provider state container).next_state =
          .terminated (constructFailMsg state.pod container e) true ∧
      strContains (constructFailMsg state.pod container e) state.pod.name = true ∧
      strContains (constructFailMsg state.pod container e) container.name = true ∧
      strContains (constructFailMsg state.pod container e) e = true) ∧
    (∀ d vols ds mx rt e, mfind state.run_context.modules container.name = some d →
      volume_path_map container state.run_context.volumes = .ok vols →
      parse_domains_annotation ext state.pod = .ok ds →
      parse_max_annotation ext state.pod = .ok mx →
      ext.newRuntime (activatorArgs ext provider state container d vols ds mx) =
        .ok rt →
      ext.startRuntime rt = .error e →
      (Waiting.next ext provider state container).next_state =
          .terminated (startFailMsg state.pod container e) true ∧
      strContains (startFailMsg state.pod container e) state.pod.name = true ∧
      strContains (startFailMsg state.pod container e) container.name = true ∧
      strContains (startFailMsg state.pod container e) e = true) := by
  refine ⟨?_, ?_, ?_, ?_, ?_, ?_⟩
  · intro h
    rw [next_module_missing ext provider state container h]
    refine ⟨rfl, ?_, ?_⟩
    · rw [show moduleMissingMsg state.pod container =
        "Pod " ++ state.pod.name ++
          (" container " ++ container.name ++ " failed load module data from run context.")
        from by simp [moduleMissingMsg, String.append_assoc]]
      exact strContains_of_append "Pod " state.pod.name _
    · exact strContains_of_append ("Pod " ++ state.pod.name ++ " container ")
        container.name _
  · intro d e hm he
    rw [next_vol_error ext provider state container d e hm he]
    refine ⟨rfl, ?_, ?_, ?_⟩
    · rw [show volumeFailMsg state.pod container e =
        "Pod " ++ state.pod.name ++
          (" container " ++ container.name ++ " failed to map volume paths: " ++ e)
        from by simp [volumeFailMsg, String.append_assoc]]
      exact strContains_of_append "Pod " state.pod.name _
    · rw [show volumeFailMsg state.pod container e =
        ("Pod " ++ state.pod.name ++ " container ") ++ container.name ++
          (" failed to map volume paths: " ++ e)
        from by simp [volumeFailMsg, String.append_assoc]]
      exact strContains_of_append _ container.name _
    · rw [show volumeFailMsg state.pod container e =
        ("Pod " ++ state.pod.name ++ " container " ++ container.name ++
          " failed to map volume paths: ") ++ e ++ ""
        from by simp [volumeFailMsg, String.append_assoc]]
      exact strContains_of_append _ e ""
  · intro d vols pe hm hv hd
    rw [next_domains_error ext provider state container d vols pe hm hv hd]
    refine ⟨rfl, ?_, ?_⟩
    · exact strContains_of_append "Error parsing annotation from key \""
        ALLOWED_DOMAINS_ANNOTATION_KEY _
    · rw [show annotationFailMsg ALLOWED_DOMAINS_ANNOTATION_KEY pe =
        ("Error parsing annotation from key \"" ++ ALLOWED_DOMAINS_ANNOTATION_KEY ++
          "\": ") ++ pe ++ ""
        from by simp [annotationFailMsg, String.append_assoc]]
      exact strContains_of_append _ pe ""
  · intro d vols ds pe hm hv hd hx
    rw [next_max_error ext provider state container d vols ds pe hm hv hd hx]
    refine ⟨rfl, ?_, ?_⟩
    · exact strContains_of_append "Error parsing annotation from key \""
        MAX_CONNCURRENT_REQUESTS_ANNOTATION_KEY _
    · rw [show annotationFailMsg MAX_CONNCURRENT_REQUESTS_ANNOTATION_KEY pe =
        ("Error parsing annotation from key \"" ++
          MAX_CONNCURRENT_REQUESTS_ANNOTATION_KEY ++ "\": ") ++ pe ++ ""
        from by simp [annotationFailMsg, String.append_assoc]]
      exact strContains_of_append _ pe ""
  · intro d vols ds mx e hm hv hd hx hc
    rw [next_construct_error ext provider state container d vols ds mx e hm hv hd hx hc]
    refine ⟨rfl, ?_, ?_, ?_⟩
    · rw [show constructFailMsg state.pod container e =
        "Pod " ++ state.pod.name ++
          (" container " ++ container.name ++ " failed to construct runtime: " ++ e)
        from by simp [constructFailMsg, String.append_assoc]]
      exact strContains_of_append "Pod " state.pod.name _
    · rw [show constructFailMsg state.pod container e =
        ("Pod " ++ state.pod.name ++ " container ") ++ container.name ++
          (" failed to construct runtime: " ++ e)
        from by simp [constructFailMsg, String.append_assoc]]
      exact strContains_of_append _ container.name _
    · rw [show constructFailMsg state.pod container e =
        ("Pod " ++ state.pod.name ++ " container " ++ container.name ++
          " failed to construct runtime: ") ++ e ++ ""
        from by simp [constructFailMsg, String.append_assoc]]
      exact strContains_of_append _ e ""
  · intro d vols ds mx rt e hm hv hd hx hc hs
    rw [next_start_error ext provider state container d vols ds mx rt e hm hv hd hx hc hs]
    refine ⟨rfl, ?_, ?_, ?_⟩
    · rw [show startFailMsg state.pod container e =
        "Pod " ++ state.pod.name ++
          (" container " ++ container.name ++ " failed to start: " ++ e)
        from by simp [startFailMsg, String.append_assoc]]
      exact strContains_of_append "Pod " state.pod.name _
    · rw [show startFailMsg state.pod container e =
        ("Pod " ++ state.pod.name ++ " container ") ++ container.name ++
          (" failed to start: " ++ e)
        from by simp [startFailMsg, String.append_assoc]]
      exact strContains_of_append _ container.name _
    · rw [show startFailMsg state.pod container e =
        ("Pod " ++ state.pod.name ++ " container " ++ container.name ++
          " failed to start: ") ++ e ++ ""
        from by simp [startFailMsg, String.append_assoc]]
      exact strContains_of_append _ e ""

/-- Witness for the amended C7: each of the six failure paths exercised at a
concrete input. -/
theorem claim_C7_witness :
    (Waiting.next extOk provFix stNoMod worker).next_state =
        .terminated (moduleMissingMsg stNoMod.pod worker) true ∧
    (Waiting.next extOk provFix stNoVol worker).next_state =
        .terminated (volumeFailMsg stNoVol.pod worker
          "no volume with the name of data found for container worker") true ∧
    (Waiting.next extBadParse provFix stBoth worker).next_state =
        .terminated (annotationFailMsg ALLOWED_DOMAINS_ANNOTATION_KEY "ejson") true ∧
    (Waiting.next extBadParse provFix stMax worker).next_state =
        .terminated (annotationFailMsg MAX_CONNCURRENT_REQUESTS_ANNOTATION_KEY "eint")
          true ∧
    (Waiting.next extConstructFail provFix stFull worker).next_state =
        .terminated (constructFailMsg stFull.pod worker "ec") true ∧
    (Waiting.next extStartFail provFix stFull worker).next_state =
        .terminated (startFailMsg stFull.pod worker "es") true :=
  ⟨((claim_C7_amended_failure_paths extOk provFix stNoMod worker).1 (by decide)).1,
   ((claim_C7_amended_failure_paths extOk provFix stNoVol worker).2.1 [1, 2]
      ("no volume with the name of data found for container worker")
      (by decide) (by rfl)).1,
   ((claim_C7_amended_failure_paths extBadParse provFix stBoth worker).2.2.1 [1, 2]
      [("/host/data", some "/data")] "ejson" (by decide) (by rfl) (by rfl)).1,
   ((claim_C7_amended_failure_paths extBadParse provFix stMax worker).2.2.2.1 [1, 2]
      [("/host/data", some "/data")] none "eint" (by decide) (by rfl) (by rfl)
      (by rfl)).1,
   ((claim_C7_amended_failure_paths extConstructFail provFix stFull worker).2.2.2.2.1
      [1, 2] [("/host/data", some "/data")] none none "ec" (by decide) (by rfl)
      (by rfl) (by rfl) (by rfl)).1,
   ((claim_C7_amended_failure_paths extStartFail provFix stFull worker).2.2.2.2.2
      [1, 2] [("/host/data", some "/data")] none none 5 "es" (by decide) (by rfl)
      (by rfl) (by rfl) (by rfl) (by rfl)).1⟩

/-- Claim C8: on full success the transition moves to `Running`, handing it
the consumer end of the bounded (capacity 8) status/log channel whose
producer end was given to the sandbox activator, and registers the handle. -/
theorem claim_C8_success_yields_running (ext : Externals) (provider : ProviderState)
    (state : ContainerState) (container : Container) (d : ModuleData)
    (vols : List (String × Option String)) (ds : Option (List String))
    (mx : Option Nat) (rt : WasiRuntime) (h : ContainerHandle)
    (hm : mfind state.run_context.modules container.name = some d)
    (hv : volume_path_map container state.run_context.volumes = .ok vols)
    (hd : parse_domains_annotation ext state.pod = .ok ds)
    (hx : parse_max_annotation ext state.pod = .ok mx)
    (hc : ext.newRuntime (activatorArgs ext provider state container d vols ds mx) =
      .ok rt)
    (hs : ext.startRuntime rt = .ok h) :
    (Waiting.next ext provider state container).next_state =
        .running (mpsc_channel 8).2 ∧
    (Waiting.next ext provider state container).activator_calls =
        [activatorArgs ext provider state container d vols ds mx] ∧
    (activatorArgs ext provider state container d vols ds mx).tx =
        (mpsc_channel 8).1 ∧
    (mpsc_channel 8).1.capacity = 8 ∧
    (mpsc_channel 8).1.tag = (mpsc_channel 8).2.tag ∧
    (Waiting.next ext provider state container).handles =
        registerHandle state.pod state.container_key h provider.handles := by
  rw [next_success ext provider state container d vols ds mx rt h hm hv hd hx hc hs]
  exact ⟨rfl, rfl, rfl, rfl, rfl, rfl⟩

/-- Witness for C8 at a concrete successful run. -/
theorem claim_C8_witness :
    (Waiting.next extOk provFix stFull worker).next_state =
        .running (mpsc_channel 8).2 ∧
    (Waiting.next extOk provFix stFull worker).activator_calls =
        [activatorArgs extOk provFix stFull worker [1, 2]
          [("/host/data", some "/data")] none none] ∧
    (activatorArgs extOk provFix stFull worker [1, 2]
        [("/host/data", some "/data")] none none).tx = (mpsc_channel 8).1 ∧
    (mpsc_channel 8).1.capacity = 8 ∧
    (mpsc_channel 8).1.tag = (mpsc_channel 8).2.tag ∧
    (Waiting.next extOk provFix stFull worker).handles =
        registerHandle stFull.pod stFull.container_key 9 provFix.handles :=
  claim_C8_success_yields_running extOk provFix stFull worker [1, 2]
    [("/host/data", some "/data")] none none 5 9
    (by decide) (by rfl) (by rfl) (by rfl) (by rfl) (by rfl)

/-! ### Handle-registry lemmas.  The registry critical section is atomic
(the whole lookup-and-create runs under the registry write lock), so a
concurrent execution of N sibling registrations is any permutation of the
N atomic `registerHandle` steps. -/

theorem registerHandle_singleton (pod : Pod) (k : String) (v : ContainerHandle)
    (ph : PodHandle) :
    registerHandle pod k v [(podKeyOf pod, ph)] =
      [(podKeyOf pod, PodHandle.mk (minsert ph.container_handles k v) ph.pod)] := by
  unfold registerHandle
  simp [mfind, minsert, mremove, PodHandle.insert_container_handle]

theorem fold_register_singleton (pod : Pod) (l : List (String × ContainerHandle)) :
    ∀ ph : PodHandle,
      l.foldl (fun r kv => registerHandle pod kv.1 kv.2 r) [(podKeyOf pod, ph)] =
        [(podKeyOf pod,
          PodHandle.mk
            (l.foldl (fun m kv => minsert m kv.1 kv.2) ph.container_handles) ph.pod)] := by
  induction l with
  | nil => intro ph; rfl
  | cons kv rest ih =>
      intro ph
      rw [List.foldl_cons, registerHandle_singleton, ih, List.foldl_cons]

theorem mfind_foldl_minsert_of_mem {κ : Type u} {α : Type v} [DecidableEq κ]
    (l : List (κ × α)) (k : κ) (v : α)
    (hmem : (k, v) ∈ l) (hnd : (l.map Prod.fst).Nodup) :
    ∀ m0 : List (κ × α),
      mfind (l.foldl (fun m kv => minsert m kv.1 kv.2) m0) k = some v := by
  induction l with
  | nil => cases hmem
  | cons kv rest ih =>
      intro m0
      simp only [List.map_cons, List.nodup_cons] at hnd
      rcases List.mem_cons.mp hmem with he | hmm
      · have h1 : kv.1 = k := by rw [← he]
        have h2 : kv.2 = v := by rw [← he]
        rw [List.foldl_cons, mfind_foldl_minsert_not_mem rest k (h1 ▸ hnd.1), ← h1, ← h2]
        exact mfind_minsert_self m0 kv.1 kv.2
      · rw [List.foldl_cons]
        exact ih hmm hnd.2 _

/-- Claim C9: N sibling containers of one pod racing through the registry
critical section — modelled as an arbitrary interleaving (permutation) of
the N atomic `registerHandle` steps on an initially empty registry —
produce exactly one pod entry with all N container handles registered under
it and no lost registrations. -/
theorem claim_C9_registry_race_safety (pod : Pod)
    (l l' : List (String × ContainerHandle))
    (hperm : l.Perm l') (hnd : (l.map Prod.fst).Nodup) (hne : l ≠ []) :
    ∃ ph : PodHandle,
      l'.foldl (fun r kv => registerHandle pod kv.1 kv.2 r) [] =
        [(podKeyOf pod, ph)] ∧
      ph.pod = pod ∧
      ∀ kv ∈ l, mfind ph.container_handles kv.1 = some kv.2 := by
  cases hl' : l' with
  | nil =>
      subst hl'
      exact absurd hperm.eq_nil hne
  | cons kv rest =>
      subst hl'
      have h0 : registerHandle pod kv.1 kv.2 [] =
          [(podKeyOf pod, PodHandle.mk (minsert [] kv.1 kv.2) pod)] := rfl
      refine ⟨PodHandle.mk
        ((kv :: rest).foldl (fun m p => minsert m p.1 p.2) []) pod, ?_, rfl, ?_⟩
      · rw [List.foldl_cons, h0, fold_register_singleton, List.foldl_cons]
      · intro kv' hkv'
        have hmem' : (kv'.1, kv'.2) ∈ kv :: rest := by
          rw [show ((kv'.1, kv'.2) : String × ContainerHandle) = kv' from rfl]
          exact hperm.subset hkv'
        have hnd' : ((kv :: rest).map Prod.fst).Nodup := (hperm.map Prod.fst).nodup hnd
        exact mfind_foldl_minsert_of_mem (kv :: rest) kv'.1 kv'.2 hmem' hnd' []

/-- Witness for C9: three sibling containers registered in a permuted
interleaving. -/
theorem claim_C9_witness :
    ∃ ph : PodHandle,
      ([("cb", 2), ("cc", 3), ("ca", 1)] : List (String × ContainerHandle)).foldl
          (fun r kv => registerHandle podPlain kv.1 kv.2 r) [] =
        [(podKeyOf podPlain, ph)] ∧
      ph.pod = podPlain ∧
      ∀ kv ∈ ([("ca", 1), ("cb", 2), ("cc", 3)] : List (String × ContainerHandle)),
        mfind ph.container_handles kv.1 = some kv.2 :=
  claim_C9_registry_race_safety podPlain
    [("ca", 1), ("cb", 2), ("cc", 3)] [("cb", 2), ("cc", 3), ("ca", 1)]
    (by decide) (by decide) (by decide)

end Krustlet
